import Mathlib

/-!
Shallow embedding of the RODEM_Calo repository (src/models/flows.py and
src/models/dense.py) and verification of the frozen claims about it.

The python code is configuration glue over torch and nflows.  Library objects
(`PiecewiseRationalQuadraticCouplingTransform`, `ReversePermutation`,
`CompositeTransform`, `StandardNormal`, `Flow`, `Linear`) are embedded as
inert records holding exactly the constructor arguments the repository code
passes to them; the repository's own logic (argument defaulting, mask
adjustment, the stacking loop, layer wiring, the forward pass) is embedded
faithfully.  `exit()` is modelled by an `Option` result (`none` = the process
terminated), and `warnings.warn` by an explicit list of warning messages
returned next to the result.  The caller-supplied parameter-network factory
`net_create_fn` is an opaque value of a type parameter `F`.
-/

/-! ### flows.py -/

/-- Embedding of the nflows transform objects the repository constructs.
`rq_spline` records the arguments of the
`PiecewiseRationalQuadraticCouplingTransform(mask, net_create_fn,
tail_bound=…, num_bins=…, tails=…, apply_unconditional_transform=…)` call
(the source aliases that class as `rq_spline`);
`reversePermutation` records `ReversePermutation(features)`. -/
inductive Transform (F : Type) where
  | rq_spline (mask : List Nat) (net_create_fn : F) (tail_bound : ℚ)
      (num_bins : Nat) (tails : String) (apply_unconditional_transform : Bool)
  | reversePermutation (features : Nat)
  deriving DecidableEq

/-- Embedding of `nflows.transforms.CompositeTransform`: it is built from the
list of its component transforms. -/
structure CompositeTransform (F : Type) where
  components : List (Transform F)
  deriving DecidableEq

/-- Embedding of the only base distribution the repository constructs,
`nflows.distributions.StandardNormal(shape=…)`. -/
inductive Distribution where
  | standardNormal (shape : List Nat)
  deriving DecidableEq

/-- Embedding of `nflows.flows.Flow(transform, distribution)`. -/
structure FlowModel (F : Type) where
  transform : CompositeTransform F
  distribution : Distribution
  deriving DecidableEq

/-- `make_mask` from src/models/flows.py: `n_mask = int(np.ceil(input_dim / 2))`
(`= (input_dim + 1) / 2` in natural-number arithmetic) ones followed by
`input_dim - n_mask` zeros. -/
def make_mask (input_dim : Nat) : List Nat :=
  let n_mask := (input_dim + 1) / 2
  List.replicate n_mask 1 ++ List.replicate (input_dim - n_mask) 0

/-- The mask `coupling_spline_transformer` ends up using: the given one when
present and of length `input_dim`, otherwise `make_mask input_dim`. -/
def effective_mask (input_dim : Nat) (mask : Option (List Nat)) : List Nat :=
  match mask with
  | some m => if m.length = input_dim then m else make_mask input_dim
  | none => make_mask input_dim

/-- `coupling_spline_transformer` from src/models/flows.py.  Returns the list
of warnings issued and the result; `none` models the `exit()` taken when
`net_create_fn is None`.  `num_stacks` is an `Int` (the python `int` branch;
`range` of a negative integer is empty, as is `List.replicate ∘ Int.toNat`).
The loop appends `num_stacks` fresh `rq_spline(mask, net_create_fn,
tail_bound=tail_bounds, num_bins=num_bins, tails=tails,
apply_unconditional_transform=False)` objects, then one
`ReversePermutation(input_dim)`. -/
def coupling_spline_transformer (F : Type) (input_dim : Nat)
    (net_create_fn : Option F) (num_stacks : Int) (tails : Option String)
    (tail_bounds : ℚ) (num_bins : Nat) (mask : Option (List Nat)) :
    List String × Option (CompositeTransform F) :=
  match net_create_fn with
  | none => (["No net create function was passed."], none)
  | some fn =>
    let tails_v := tails.getD "linear"
    let mask_warn : List String :=
      match mask with
      | some m => if m.length = input_dim then [] else ["mask must match the input dimension. Adjusting mask."]
      | none => ["mask must match the input dimension. Adjusting mask."]
    let mask_v := effective_mask input_dim mask
    let transform_list : List (Transform F) :=
      List.replicate num_stacks.toNat
        (Transform.rq_spline mask_v fn tail_bounds num_bins tails_v false)
      ++ [Transform.reversePermutation input_dim]
    (mask_warn, some ⟨transform_list⟩)

/-- `coupling_flow` from src/models/flows.py.  The `base_density` argument may
be any value (python is dynamically typed, hence the type parameter `B`); the
local name is immediately rebound to `StandardNormal(shape=[input_dim])`.
The transformer call passes no `mask`, so `mask = none` there. -/
def coupling_flow (F : Type) (B : Type) (input_dim : Nat)
    (net_create_fn : Option F) (num_stacks : Int) (tails : Option String)
    (tail_bounds : ℚ) (num_bins : Nat) (base_density : B) :
    List String × Option (FlowModel F) :=
  match coupling_spline_transformer F input_dim net_create_fn num_stacks tails
      tail_bounds num_bins none with
  | (warns, none) => (warns, none)
  | (warns, some transformer) =>
    (warns, some ⟨transformer, Distribution.standardNormal [input_dim]⟩)

/-! ### dense.py -/

/-- Vectors are lists of rationals (an exact stand-in for torch tensors of
rank 1; the claims under verification are about wiring, not float rounding). -/
abbrev Vec := List ℚ

/-- Dot product, truncating at the shorter list. -/
def dot (u v : Vec) : ℚ := (List.zipWith (fun a b => a * b) u v).sum

/-- Elementwise sum of two vectors (torch `+` on same-shape tensors). -/
def addVec (u v : Vec) : Vec := List.zipWith (fun a b => a + b) u v

/-- Embedding of `torch.nn.Linear(in_features, out_features)`: an affine map
given by a weight matrix (one row per output feature) and a bias vector.
torch initialises `weight` and `bias` randomly; the embedding leaves them
arbitrary and lets the DenseNet constructor obtain each `Linear` from a
supplied family `mkLin : Nat → Nat → Linear` standing for
`Linear(in_features, out_features)`. -/
structure Linear where
  in_features : Nat
  out_features : Nat
  weight : List Vec
  bias : Vec
  deriving DecidableEq

/-- Applying a `Linear` module: `weight @ x + bias`, one row at a time. -/
def Linear.apply (l : Linear) (x : Vec) : Vec :=
  List.zipWith (fun row b => dot row x + b) l.weight l.bias

/-- A `Linear` whose shape attributes match its actual matrix shape. -/
def Linear.wellFormed (l : Linear) : Prop :=
  l.weight.length = l.out_features ∧ (∀ row ∈ l.weight, row.length = l.in_features)
    ∧ l.bias.length = l.out_features

/-- `torch.relu`, applied elementwise. -/
def reluVec (v : Vec) : Vec := v.map (fun a => max a 0)

/-- `torch.nn.Identity()`. -/
def identityVec (v : Vec) : Vec := v

/-- Embedding of the `DenseNet(torch.nn.Module)` attributes set by
`DenseNet.__init__` in src/models/dense.py.  Activations are opaque
vector functions (`op_activ` defaults to `Identity()`, `int_activ` to
`relu` at call sites). -/
structure DenseNet where
  ipdim : Nat
  opdim : Nat
  op_activ : Vec → Vec
  int_activ : Vec → Vec
  context : Option Nat
  layernorm : Bool
  batchnorm : Bool
  islast : Bool
  layers : List Nat
  contextual : Option Linear
  hidden : List Linear

/-- `DenseNet.__init__` from src/models/dense.py.  `mkLin a b` stands for the
(randomly initialised) `torch.nn.Linear(a, b)`.  A `node_list` of `none`
defaults to `[10, 10]`.  `self.layers = node_list; if self.islast:
self.layers += [output_dim]` extends the caller's list object in place, so the
second component of the result is the value the `node_list` argument object
holds after construction (unchanged when `islast` is false).  When both
normalisation flags are set, `batchnorm` wins and a warning is issued.
`self.hidden` is `Linear(input_dim, layers[0])` followed by
`Linear(layers[i], layers[i+1])` for `i < len(layers) - 1`.
(`layers[0]` raises in python when `layers` is empty, i.e. when `islast` is
false and `node_list` is `[]`; the embedding totalises that corner with
`headD 0`, and no claim touches it.) -/
def DenseNet.init (mkLin : Nat → Nat → Linear) (input_dim output_dim : Nat)
    (context : Option Nat) (node_list : Option (List Nat))
    (op_activ int_activ : Vec → Vec) (layernorm batchnorm islast : Bool) :
    DenseNet × List Nat :=
  let nl := node_list.getD [10, 10]
  let layers := if islast then nl ++ [output_dim] else nl
  let both := layernorm && batchnorm
  let ln := if both then false else layernorm
  let bn := if both then true else batchnorm
  let contextual := context.map (fun c => mkLin c (layers.headD 0))
  let hidden := mkLin input_dim (layers.headD 0) ::
    (List.range (layers.length - 1)).map
      (fun i => mkLin (layers.getD i 0) (layers.getD (i + 1) 0))
  (⟨input_dim, output_dim, op_activ, int_activ, context, ln, bn, islast,
    layers, contextual, hidden⟩, layers)

/-- The loop body of `DenseNet.forward` over `self.hidden[:-1]`: apply the
layer, add `self.contextual(context)` when a context was passed and this is
layer 0, then apply `self.int_activ`.  `none` models the `AttributeError`
raised when a context is passed to a net built without a context dimension
(no `self.contextual` attribute exists then). -/
def forwardLoop (int_activ : Vec → Vec) (contextual : Option Linear)
    (ctx : Option Vec) : Nat → List Linear → Vec → Option Vec
  | _, [], x => some x
  | i, l :: ls, x =>
    match ctx with
    | none => forwardLoop int_activ contextual ctx (i + 1) ls (int_activ (l.apply x))
    | some c =>
      if i = 0 then
        match contextual with
        | none => none
        | some cl =>
          forwardLoop int_activ contextual ctx (i + 1) ls
            (int_activ (addVec (l.apply x) (cl.apply c)))
      else forwardLoop int_activ contextual ctx (i + 1) ls (int_activ (l.apply x))

/-- `DenseNet.forward` from src/models/dense.py: run the loop over
`self.hidden[:-1]`, then `self.op_activ(self.hidden[-1](x))`.  `none` models
the python error cases (empty `hidden`, or a context passed to a net that has
no `contextual` module). -/
def DenseNet.forward (net : DenseNet) (x : Vec) (ctx : Option Vec) : Option Vec :=
  match net.hidden.getLast? with
  | none => none
  | some lastLayer =>
    match forwardLoop net.int_activ net.contextual ctx 0 net.hidden.dropLast x with
    | none => none
    | some y => some (net.op_activ (lastLayer.apply y))

/-- Plain feed-forward composition (no context): fold the non-final layers
with `int_activ` after each, apply the final layer, then `op_activ`.  This is
the spec-side description the forward pass is compared against. -/
def plainFF (int_activ op_activ : Vec → Vec) (mids : List Linear)
    (lastLayer : Linear) (x : Vec) : Vec :=
  op_activ (lastLayer.apply (mids.foldl (fun v l => int_activ (l.apply v)) x))

/-! ### Claims about flows.py -/

/-- C1: for every `num_stacks ≥ 0` and non-`None` `net_create_fn`,
`coupling_spline_transformer` returns a `CompositeTransform` whose component
list is exactly `num_stacks` rational-quadratic coupling transforms in order,
each built with the same (effective) mask and with `net_create_fn` as the
parameter-network factory, followed by exactly one `ReversePermutation` over
`input_dim` features. -/
theorem coupling_spline_transformer_structure (F : Type) (input_dim : Nat)
    (fn : F) (num_stacks : Int) (h : 0 ≤ num_stacks) (tails : Option String)
    (tail_bounds : ℚ) (num_bins : Nat) (mask : Option (List Nat)) :
    (coupling_spline_transformer F input_dim (some fn) num_stacks tails
        tail_bounds num_bins mask).2 =
      some ⟨List.replicate num_stacks.toNat
              (Transform.rq_spline (effective_mask input_dim mask) fn
                tail_bounds num_bins (tails.getD "linear") false)
            ++ [Transform.reversePermutation input_dim]⟩
    ∧ (num_stacks.toNat : Int) = num_stacks := by
  refine ⟨rfl, ?_⟩
  omega

/-- Witness for C1 at `input_dim = 3`, `num_stacks = 2`. -/
theorem coupling_spline_transformer_structure_witness :
    (0 : Int) ≤ 2
    ∧ ((coupling_spline_transformer Unit 3 (some ()) 2 none 1 8 none).2 =
        some ⟨List.replicate (Int.toNat 2)
                (Transform.rq_spline (effective_mask 3 none) () 1 8
                  ((none : Option String).getD "linear") false)
              ++ [Transform.reversePermutation 3]⟩
      ∧ ((Int.toNat 2 : Nat) : Int) = 2) :=
  ⟨by decide,
   coupling_spline_transformer_structure Unit 3 () 2 (by decide) none 1 8 none⟩

/-- C6: `coupling_flow` pairs the composite transform produced by
`coupling_spline_transformer` (called with the same arguments and no mask)
with a standard normal base density over `input_dim` dimensions. -/
theorem coupling_flow_pairs (F B : Type) (input_dim : Nat) (fn : F)
    (num_stacks : Int) (tails : Option String) (tail_bounds : ℚ)
    (num_bins : Nat) (base_density : B) :
    ∃ t, (coupling_spline_transformer F input_dim (some fn) num_stacks tails
            tail_bounds num_bins none).2 = some t
      ∧ (coupling_flow F B input_dim (some fn) num_stacks tails tail_bounds
            num_bins base_density).2 =
          some ⟨t, Distribution.standardNormal [input_dim]⟩ :=
  ⟨_, rfl, rfl⟩

/-- C2: the `base_density` argument of `coupling_flow` is dead: the result is
the same for any two values (even of different types) passed there, and the
returned flow's base distribution is always `StandardNormal(shape=[input_dim])`. -/
theorem coupling_flow_base_density_irrelevant (F B1 B2 : Type) (input_dim : Nat)
    (net_create_fn : Option F) (num_stacks : Int) (tails : Option String)
    (tail_bounds : ℚ) (num_bins : Nat) (b1 : B1) (b2 : B2) :
    coupling_flow F B1 input_dim net_create_fn num_stacks tails tail_bounds
        num_bins b1
      = coupling_flow F B2 input_dim net_create_fn num_stacks tails tail_bounds
          num_bins b2
    ∧ ∀ fl, (coupling_flow F B1 input_dim net_create_fn num_stacks tails
          tail_bounds num_bins b1).2 = some fl →
        fl.distribution = Distribution.standardNormal [input_dim] := by
  refine ⟨rfl, ?_⟩
  intro fl hfl
  cases net_create_fn with
  | none =>
    simp [coupling_flow, coupling_spline_transformer] at hfl
  | some fn =>
    simp only [coupling_flow, coupling_spline_transformer] at hfl
    cases hfl
    rfl

/-- Witness for C2 at `input_dim = 3`, with base-density arguments `0 : Nat`
and `true : Bool`. -/
theorem coupling_flow_base_density_irrelevant_witness :
    (coupling_flow Unit Nat 3 (some ()) 2 none 1 8 0
      = coupling_flow Unit Bool 3 (some ()) 2 none 1 8 true)
    ∧ ∀ fl, (coupling_flow Unit Nat 3 (some ()) 2 none 1 8 0).2 = some fl →
        fl.distribution = Distribution.standardNormal [3] :=
  coupling_flow_base_density_irrelevant Unit Nat Bool 3 (some ()) 2 none 1 8
    0 true

/-- C8: `coupling_spline_transformer` hits `exit()` (modelled by `none`) iff
`net_create_fn` is `None`, after issuing a warning; for any non-`None`
`net_create_fn` it returns a `CompositeTransform`; an absent (`None`) or
wrong-length mask is no error: it is replaced by `make_mask input_dim`, the
call behaving exactly like one with no mask. -/
theorem coupling_spline_transformer_exit_iff (F : Type) (input_dim : Nat)
    (net_create_fn : Option F) (num_stacks : Int) (tails : Option String)
    (tail_bounds : ℚ) (num_bins : Nat) (mask : Option (List Nat)) :
    ((coupling_spline_transformer F input_dim net_create_fn num_stacks tails
        tail_bounds num_bins mask).2 = none ↔ net_create_fn = none)
    ∧ (net_create_fn = none →
        (coupling_spline_transformer F input_dim net_create_fn num_stacks tails
            tail_bounds num_bins mask).1 = ["No net create function was passed."])
    ∧ (∀ fn, net_create_fn = some fn →
        (coupling_spline_transformer F input_dim net_create_fn num_stacks tails
            tail_bounds num_bins mask).2 =
          some ⟨List.replicate num_stacks.toNat
                  (Transform.rq_spline (effective_mask input_dim mask) fn
                    tail_bounds num_bins (tails.getD "linear") false)
                ++ [Transform.reversePermutation input_dim]⟩)
    ∧ ((mask = none ∨ ∃ m, mask = some m ∧ m.length ≠ input_dim) →
        coupling_spline_transformer F input_dim net_create_fn num_stacks tails
            tail_bounds num_bins mask
          = coupling_spline_transformer F input_dim net_create_fn num_stacks
              tails tail_bounds num_bins none
        ∧ effective_mask input_dim mask = make_mask input_dim) := by
  refine ⟨?_, ?_, ?_, ?_⟩
  · cases net_create_fn with
    | none => simp [coupling_spline_transformer]
    | some fn => simp [coupling_spline_transformer]
  · intro h
    subst h
    rfl
  · intro fn h
    subst h
    rfl
  · intro h
    rcases h with h | ⟨m, hm, hlen⟩
    · subst h
      exact ⟨rfl, rfl⟩
    · subst hm
      refine ⟨?_, by simp [effective_mask, hlen]⟩
      cases net_create_fn with
      | none => rfl
      | some fn =>
        simp [coupling_spline_transformer, effective_mask, hlen]

/-- Witness for C8 at `input_dim = 3` with the wrong-length mask `[1]`. -/
theorem coupling_spline_transformer_exit_iff_witness :
    ((coupling_spline_transformer Unit 3 (some ()) 2 none 1 8 (some [1])).2
        = some ⟨List.replicate (Int.toNat 2)
                  (Transform.rq_spline (effective_mask 3 (some [1])) () 1 8
                    ((none : Option String).getD "linear") false)
                ++ [Transform.reversePermutation 3]⟩)
    ∧ (coupling_spline_transformer Unit 3 (some ()) 2 none 1 8 (some [1])
        = coupling_spline_transformer Unit 3 (some ()) 2 none 1 8 none)
    ∧ effective_mask 3 (some [1]) = make_mask 3 :=
  ⟨(coupling_spline_transformer_exit_iff Unit 3 (some ()) 2 none 1 8
      (some [1])).2.2.1 () rfl,
   (coupling_spline_transformer_exit_iff Unit 3 (some ()) 2 none 1 8
      (some [1])).2.2.2 (Or.inr ⟨[1], rfl, by decide⟩)⟩

/-! ### Claims about dense.py -/

/-- A concrete well-formed `Linear(a, b)` (all weights 1, all biases 0), used
to instantiate the abstract initialiser `mkLin` in witnesses. -/
def mkLinOnes (a b : Nat) : Linear :=
  ⟨a, b, List.replicate b (List.replicate a 1), List.replicate b 0⟩

/-- C7: with `islast` true (its default), `DenseNet.__init__` extends the
caller's `node_list` object in place with `output_dim` (`self.layers =
node_list; self.layers += [output_dim]`), so after construction the caller's
list is `node_list ++ [output_dim]`, one element longer; constructing a second
`DenseNet` from that same list object yields one more hidden linear layer than
the first construction. -/
theorem densenet_init_mutates_node_list (mkLin : Nat → Nat → Linear)
    (input_dim output_dim : Nat) (context : Option Nat) (nl : List Nat)
    (op_activ int_activ : Vec → Vec) (layernorm batchnorm : Bool) :
    (DenseNet.init mkLin input_dim output_dim context (some nl) op_activ
        int_activ layernorm batchnorm true).2 = nl ++ [output_dim]
    ∧ (DenseNet.init mkLin input_dim output_dim context (some nl) op_activ
        int_activ layernorm batchnorm true).2.length = nl.length + 1
    ∧ (DenseNet.init mkLin input_dim output_dim context
          (some ((DenseNet.init mkLin input_dim output_dim context (some nl)
            op_activ int_activ layernorm batchnorm true).2))
          op_activ int_activ layernorm batchnorm true).1.hidden.length
        = (DenseNet.init mkLin input_dim output_dim context (some nl) op_activ
            int_activ layernorm batchnorm true).1.hidden.length + 1 := by
  refine ⟨rfl, by simp [DenseNet.init], ?_⟩
  simp [DenseNet.init]

/-- C3 (the bug): the `layernorm` and `batchnorm` options of `DenseNet` are
parsed, stored and conflict-resolved (`batchnorm` wins when both are set), but
`forward` never uses them: no normalisation module is constructed and the
output is the plain feed-forward value, identical whatever the flags.  In
particular at the concrete input below the `layernorm=True` network and the
`layernorm=False` network both return `[4, 4]`, a vector a layer-normalised
result could not be (its mean is 4, not 0). -/
theorem densenet_norm_flags_no_effect :
    (∀ (mkLin : Nat → Nat → Linear) (input_dim output_dim : Nat)
        (context : Option Nat) (node_list : Option (List Nat))
        (op_activ int_activ : Vec → Vec) (ln1 bn1 ln2 bn2 islast : Bool)
        (x : Vec) (ctx : Option Vec),
      (DenseNet.init mkLin input_dim output_dim context node_list op_activ
          int_activ ln1 bn1 islast).1.forward x ctx
        = (DenseNet.init mkLin input_dim output_dim context node_list op_activ
            int_activ ln2 bn2 islast).1.forward x ctx)
    ∧ (DenseNet.init mkLinOnes 2 2 none (some [2]) identityVec reluVec
        true false true).1.forward [1, 1] none = some [4, 4]
    ∧ (DenseNet.init mkLinOnes 2 2 none (some [2]) identityVec reluVec
        false false true).1.forward [1, 1] none = some [4, 4]
    ∧ (DenseNet.init mkLinOnes 2 2 none (some [2]) identityVec reluVec
        true false true).1.layernorm = true
    ∧ (DenseNet.init mkLinOnes 2 2 none (some [2]) identityVec reluVec
        true true true).1.layernorm = false
    ∧ (DenseNet.init mkLinOnes 2 2 none (some [2]) identityVec reluVec
        true true true).1.batchnorm = true := by
  have heval : ∀ ln : Bool,
      (DenseNet.init mkLinOnes 2 2 none (some [2]) identityVec reluVec
        ln false true).1.forward [1, 1] none = some [4, 4] := by
    intro ln
    simp [DenseNet.init, DenseNet.forward, forwardLoop, mkLinOnes,
      Linear.apply, dot, addVec, reluVec, identityVec, List.range_succ]
    norm_num
  refine ⟨?_, heval true, heval false, by rfl, by rfl, by rfl⟩
  intro mkLin input_dim output_dim context node_list op_activ int_activ
    ln1 bn1 ln2 bn2 islast x ctx
  rfl

/-- C9: the factories are deterministic functions of their arguments: equal
arguments (including the same layer initialiser `mkLin`, which abstracts
torch's weight sampling) give equal results, for
`coupling_spline_transformer`, `coupling_flow` and `DenseNet.__init__`. -/
theorem factories_deterministic (F B : Type)
    (d d' : Nat) (nf nf' : Option F) (ns ns' : Int) (tl tl' : Option String)
    (tb tb' : ℚ) (nb nb' : Nat) (mk mk' : Option (List Nat)) (b b' : B)
    (mkLin mkLin' : Nat → Nat → Linear) (ip ip' od od' : Nat)
    (cx cx' : Option Nat) (nlist nlist' : Option (List Nat))
    (opA opA' intA intA' : Vec → Vec) (ln ln' bn bn' il il' : Bool)
    (h1 : d = d') (h2 : nf = nf') (h3 : ns = ns') (h4 : tl = tl')
    (h5 : tb = tb') (h6 : nb = nb') (h7 : mk = mk') (h8 : b = b')
    (h9 : mkLin = mkLin') (h10 : ip = ip') (h11 : od = od') (h12 : cx = cx')
    (h13 : nlist = nlist') (h14 : opA = opA') (h15 : intA = intA')
    (h16 : ln = ln') (h17 : bn = bn') (h18 : il = il') :
    coupling_spline_transformer F d nf ns tl tb nb mk
        = coupling_spline_transformer F d' nf' ns' tl' tb' nb' mk'
    ∧ coupling_flow F B d nf ns tl tb nb b
        = coupling_flow F B d' nf' ns' tl' tb' nb' b'
    ∧ DenseNet.init mkLin ip od cx nlist opA intA ln bn il
        = DenseNet.init mkLin' ip' od' cx' nlist' opA' intA' ln' bn' il' := by
  subst h1 h2 h3 h4 h5 h6 h7 h8 h9 h10 h11 h12 h13 h14 h15 h16 h17 h18
  exact ⟨rfl, rfl, rfl⟩

/-- Witness for C9 at concrete arguments (`num_stacks` written as `2` on one
side and `1 + 1` on the other). -/
theorem factories_deterministic_witness :
    (2 : Int) = 1 + 1
    ∧ (coupling_spline_transformer Unit 3 (some ()) 2 none 1 8 none
        = coupling_spline_transformer Unit 3 (some ()) (1 + 1) none 1 8 none
      ∧ coupling_flow Unit Nat 3 (some ()) 2 none 1 8 0
          = coupling_flow Unit Nat 3 (some ()) (1 + 1) none 1 8 0
      ∧ DenseNet.init mkLinOnes 1 2 none (some [2]) identityVec reluVec
            false false true
          = DenseNet.init mkLinOnes 1 2 none (some [2]) identityVec reluVec
              false false true) :=
  ⟨by decide,
   factories_deterministic Unit Nat 3 3 (some ()) (some ()) 2 (1 + 1) none none
     1 1 8 8 none none 0 0 mkLinOnes mkLinOnes 1 1 2 2 none none (some [2])
     (some [2]) identityVec identityVec reluVec reluVec false false false false
     true true rfl rfl (by decide) rfl rfl rfl rfl rfl rfl rfl rfl rfl rfl rfl
     rfl rfl rfl rfl⟩

/-! Helper lemmas for the DenseNet wiring and forward-pass claims. -/

/-- The loop of `forward` with no context is a plain fold of
activation-after-layer over the processed layers. -/
theorem forwardLoop_none (int_activ : Vec → Vec) (contextual : Option Linear) :
    ∀ (ls : List Linear) (i : Nat) (x : Vec),
      forwardLoop int_activ contextual none i ls x
        = some (ls.foldl (fun v l => int_activ (l.apply v)) x) := by
  intro ls
  induction ls with
  | nil => intro i x; rfl
  | cons l ls ih =>
    intro i x
    simpa [forwardLoop] using ih (i + 1) (int_activ (l.apply x))

/-- Past index 0, the loop of `forward` never touches the context again: it is
the same plain fold. -/
theorem forwardLoop_pos (int_activ : Vec → Vec) (contextual : Option Linear)
    (c : Vec) :
    ∀ (ls : List Linear) (i : Nat), i ≠ 0 → ∀ (x : Vec),
      forwardLoop int_activ contextual (some c) i ls x
        = some (ls.foldl (fun v l => int_activ (l.apply v)) x) := by
  intro ls
  induction ls with
  | nil => intro i hi x; rfl
  | cons l ls ih =>
    intro i hi x
    simp only [forwardLoop, if_neg hi]
    exact ih (i + 1) (by omega) (int_activ (l.apply x))

/-- A well-formed linear layer outputs a vector of its `out_features` length,
whatever the input. -/
theorem Linear.apply_length (l : Linear) (h : l.wellFormed) (x : Vec) :
    (l.apply x).length = l.out_features := by
  simp [Linear.apply, h.1, h.2.2]

/-- The element `output_dim` appended by the constructor sits at index
`l.length`. -/
theorem getD_append_singleton (l : List Nat) (a d : Nat) :
    (l ++ [a]).getD l.length d = a := by
  induction l with
  | nil => rfl
  | cons x xs ih =>
    simp only [List.cons_append, List.length_cons, List.getD_cons_succ]
    exact ih

/-- The in/out shapes of the hidden layers built by `DenseNet.__init__` with
`islast` true: `input_dim → n1, n1 → n2, …, nk → output_dim`. -/
theorem wiring_shapes (mkLin : Nat → Nat → Linear)
    (h1 : ∀ a b, (mkLin a b).in_features = a)
    (h2 : ∀ a b, (mkLin a b).out_features = b) (od : Nat) :
    ∀ (nl : List Nat) (ip : Nat), nl ≠ [] →
      (mkLin ip ((nl ++ [od]).headD 0) ::
          (List.range ((nl ++ [od]).length - 1)).map
            (fun i => mkLin ((nl ++ [od]).getD i 0) ((nl ++ [od]).getD (i + 1) 0))).map
          (fun l => (l.in_features, l.out_features))
        = List.zip (ip :: nl) (nl ++ [od]) := by
  intro nl
  induction nl with
  | nil => intro ip h; exact absurd rfl h
  | cons a t ih =>
    intro ip h
    cases t with
    | nil => simp [h1, h2, List.range_succ]
    | cons b t' =>
      have hstep : ((a :: b :: t') ++ [od]).length - 1
          = ((b :: t') ++ [od]).length - 1 + 1 := by
        simp
      rw [hstep, List.range_succ_eq_map]
      have hih := ih a (by simp)
      simp only [List.cons_append, List.map_cons, List.map_map, Function.comp,
        List.getD_cons_zero, List.getD_cons_succ, List.headD_cons, h1, h2,
        List.zip_cons_cons, Nat.succ_eq_add_one] at hih ⊢
      exact congrArg₂ List.cons rfl hih

/-- C4: a `DenseNet` built with a nonempty `node_list = [n1, …, nk]` and the
default `islast = True` has `k + 1` linear layers shaped
`input_dim → n1, n1 → n2, …, nk → output_dim`; `forward(x, None)` applies them
in order with `int_activ` after every layer but the last and `op_activ` after
the last, and (for shape-correct layers and a length-preserving `op_activ`)
the output has dimension `output_dim`. -/
theorem densenet_layer_wiring (mkLin : Nat → Nat → Linear)
    (input_dim output_dim : Nat) (nl : List Nat)
    (op_activ int_activ : Vec → Vec) (x : Vec) (net : DenseNet)
    (hnet : net = (DenseNet.init mkLin input_dim output_dim none (some nl)
      op_activ int_activ false false true).1)
    (h1 : ∀ a b, (mkLin a b).in_features = a)
    (h2 : ∀ a b, (mkLin a b).out_features = b)
    (hwf : ∀ a b, (mkLin a b).wellFormed)
    (hop : ∀ v, (op_activ v).length = v.length)
    (hnl : nl ≠ []) :
    net.hidden.length = nl.length + 1
    ∧ net.hidden.map (fun l => (l.in_features, l.out_features))
        = List.zip (input_dim :: nl) (nl ++ [output_dim])
    ∧ (∃ mids lastLayer, net.hidden = mids ++ [lastLayer]
        ∧ net.forward x none
            = some (plainFF int_activ op_activ mids lastLayer x))
    ∧ (∀ y, net.forward x none = some y → y.length = output_dim) := by
  subst hnet
  have hhid : (DenseNet.init mkLin input_dim output_dim none (some nl)
      op_activ int_activ false false true).1.hidden
      = mkLin input_dim ((nl ++ [output_dim]).headD 0) ::
        (List.range ((nl ++ [output_dim]).length - 1)).map
          (fun i => mkLin ((nl ++ [output_dim]).getD i 0)
            ((nl ++ [output_dim]).getD (i + 1) 0)) := rfl
  obtain ⟨m, hm⟩ : ∃ m, nl.length = m + 1 := by
    cases nl with
    | nil => exact absurd rfl hnl
    | cons a t => exact ⟨t.length, rfl⟩
  have hlen1 : (nl ++ [output_dim]).length - 1 = m + 1 := by simp [hm]
  have hconc : (DenseNet.init mkLin input_dim output_dim none (some nl)
      op_activ int_activ false false true).1.hidden
      = (mkLin input_dim ((nl ++ [output_dim]).headD 0) ::
          (List.range m).map (fun i => mkLin ((nl ++ [output_dim]).getD i 0)
            ((nl ++ [output_dim]).getD (i + 1) 0)))
        ++ [mkLin ((nl ++ [output_dim]).getD m 0)
              ((nl ++ [output_dim]).getD (m + 1) 0)] := by
    rw [hhid, hlen1, List.range_succ, List.map_append]
    rfl
  have hpo : (DenseNet.init mkLin input_dim output_dim none (some nl)
      op_activ int_activ false false true).1.op_activ = op_activ := rfl
  have hpi : (DenseNet.init mkLin input_dim output_dim none (some nl)
      op_activ int_activ false false true).1.int_activ = int_activ := rfl
  have hfw : (DenseNet.init mkLin input_dim output_dim none (some nl)
      op_activ int_activ false false true).1.forward x none
      = some (plainFF int_activ op_activ
          (mkLin input_dim ((nl ++ [output_dim]).headD 0) ::
            (List.range m).map (fun i => mkLin ((nl ++ [output_dim]).getD i 0)
              ((nl ++ [output_dim]).getD (i + 1) 0)))
          (mkLin ((nl ++ [output_dim]).getD m 0)
            ((nl ++ [output_dim]).getD (m + 1) 0)) x) := by
    simp only [DenseNet.forward, hconc, hpo, hpi, List.getLast?_concat,
      List.dropLast_concat, forwardLoop_none, plainFF]
  refine ⟨?_, ?_, ⟨_, _, hconc, hfw⟩, ?_⟩
  · rw [hhid]
    simp [hlen1, hm]
  · rw [hhid]
    exact wiring_shapes mkLin h1 h2 output_dim nl input_dim hnl
  · intro y hy
    rw [hfw] at hy
    cases hy
    simp only [plainFF]
    rw [hop, Linear.apply_length _ (hwf _ _), h2, ← hm]
    exact getD_append_singleton nl output_dim 0

/-- Witness for C4: `input_dim = 1`, `output_dim = 2`, `node_list = [2]`,
default activations, input `[1]`; the output is `[2, 2]`, of length 2. -/
theorem densenet_layer_wiring_witness :
    (DenseNet.init mkLinOnes 1 2 none (some [2]) identityVec reluVec
        false false true).1.hidden.length = [2].length + 1
    ∧ (DenseNet.init mkLinOnes 1 2 none (some [2]) identityVec reluVec
        false false true).1.hidden.map (fun l => (l.in_features, l.out_features))
        = List.zip (1 :: [2]) ([2] ++ [2])
    ∧ ([2, 2] : Vec).length = 2 := by
  have h := densenet_layer_wiring mkLinOnes 1 2 [2] identityVec reluVec [1]
    _ rfl (fun a b => rfl) (fun a b => rfl)
    (fun a b => ⟨by simp [mkLinOnes], by simp [mkLinOnes], by simp [mkLinOnes]⟩)
    (fun v => rfl) (by simp)
  refine ⟨h.1, h.2.1, ?_⟩
  refine h.2.2.2 [2, 2] ?_
  simp [DenseNet.init, DenseNet.forward, forwardLoop, mkLinOnes,
    Linear.apply, dot, addVec, reluVec, identityVec, List.range_succ]
  norm_num

/-- C5 (amended): for a `DenseNet` built with a context dimension and at least
two linear layers (a nonempty `node_list` with the default `islast = True`),
`forward(x, context)` adds `self.contextual(context)` — the image of the
context under the single linear map into the first hidden width — to the first
layer's pre-activation output and nowhere else, and `forward(x, None)` is the
plain feed-forward result with no context term. -/
theorem densenet_context_first_layer (mkLin : Nat → Nat → Linear)
    (input_dim output_dim c : Nat) (nl : List Nat)
    (op_activ int_activ : Vec → Vec) (x ctxv : Vec) (net : DenseNet)
    (hnet : net = (DenseNet.init mkLin input_dim output_dim (some c) (some nl)
      op_activ int_activ false false true).1)
    (hnl : nl ≠ []) :
    ∃ first mids lastLayer ctxl,
      net.hidden = (first :: mids) ++ [lastLayer]
      ∧ net.contextual = some ctxl
      ∧ net.forward x (some ctxv)
          = some (op_activ (lastLayer.apply
              (mids.foldl (fun v l => int_activ (l.apply v))
                (int_activ (addVec (first.apply x) (ctxl.apply ctxv))))))
      ∧ net.forward x none
          = some (plainFF int_activ op_activ (first :: mids) lastLayer x) := by
  subst hnet
  obtain ⟨m, hm⟩ : ∃ m, nl.length = m + 1 := by
    cases nl with
    | nil => exact absurd rfl hnl
    | cons a t => exact ⟨t.length, rfl⟩
  have hlen1 : (nl ++ [output_dim]).length - 1 = m + 1 := by simp [hm]
  have hconc : (DenseNet.init mkLin input_dim output_dim (some c) (some nl)
      op_activ int_activ false false true).1.hidden
      = (mkLin input_dim ((nl ++ [output_dim]).headD 0) ::
          (List.range m).map (fun i => mkLin ((nl ++ [output_dim]).getD i 0)
            ((nl ++ [output_dim]).getD (i + 1) 0)))
        ++ [mkLin ((nl ++ [output_dim]).getD m 0)
              ((nl ++ [output_dim]).getD (m + 1) 0)] := by
    show mkLin input_dim ((nl ++ [output_dim]).headD 0) ::
        (List.range ((nl ++ [output_dim]).length - 1)).map
          (fun i => mkLin ((nl ++ [output_dim]).getD i 0)
            ((nl ++ [output_dim]).getD (i + 1) 0)) = _
    rw [hlen1, List.range_succ, List.map_append]
    rfl
  have hct : (DenseNet.init mkLin input_dim output_dim (some c) (some nl)
      op_activ int_activ false false true).1.contextual
      = some (mkLin c ((nl ++ [output_dim]).headD 0)) := rfl
  have hpo : (DenseNet.init mkLin input_dim output_dim (some c) (some nl)
      op_activ int_activ false false true).1.op_activ = op_activ := rfl
  have hpi : (DenseNet.init mkLin input_dim output_dim (some c) (some nl)
      op_activ int_activ false false true).1.int_activ = int_activ := rfl
  have hstep0 : ∀ z : Vec,
      forwardLoop int_activ (some (mkLin c ((nl ++ [output_dim]).headD 0)))
          (some ctxv) 0
          (mkLin input_dim ((nl ++ [output_dim]).headD 0) ::
            (List.range m).map (fun i => mkLin ((nl ++ [output_dim]).getD i 0)
              ((nl ++ [output_dim]).getD (i + 1) 0))) z
        = forwardLoop int_activ
            (some (mkLin c ((nl ++ [output_dim]).headD 0))) (some ctxv) 1
            ((List.range m).map (fun i => mkLin ((nl ++ [output_dim]).getD i 0)
              ((nl ++ [output_dim]).getD (i + 1) 0)))
            (int_activ (addVec
              ((mkLin input_dim ((nl ++ [output_dim]).headD 0)).apply z)
              ((mkLin c ((nl ++ [output_dim]).headD 0)).apply ctxv))) :=
    fun z => rfl
  refine ⟨_, _, _, _, hconc, hct, ?_, ?_⟩
  · simp only [DenseNet.forward, hconc, hct, hpo, hpi, List.getLast?_concat,
      List.dropLast_concat]
    rw [hstep0 x, forwardLoop_pos int_activ _ ctxv _ 1 (by omega)]
  · simp only [DenseNet.forward, hconc, hct, hpo, hpi, List.getLast?_concat,
      List.dropLast_concat, forwardLoop_none, plainFF]

/-- Witness for the amended C5: `input_dim = 1`, `output_dim = 1`, context
dimension 1, `node_list = [2]`, input `[1]`, context vector `[5]`. -/
theorem densenet_context_first_layer_witness :
    ([2] : List Nat) ≠ []
    ∧ ∃ first mids lastLayer ctxl,
        (DenseNet.init mkLinOnes 1 1 (some 1) (some [2]) identityVec reluVec
            false false true).1.hidden = (first :: mids) ++ [lastLayer]
        ∧ (DenseNet.init mkLinOnes 1 1 (some 1) (some [2]) identityVec reluVec
            false false true).1.contextual = some ctxl
        ∧ (DenseNet.init mkLinOnes 1 1 (some 1) (some [2]) identityVec reluVec
            false false true).1.forward [1] (some [5])
            = some (identityVec (lastLayer.apply
                (mids.foldl (fun v l => reluVec (l.apply v))
                  (reluVec (addVec (first.apply [1]) (ctxl.apply [5]))))))
        ∧ (DenseNet.init mkLinOnes 1 1 (some 1) (some [2]) identityVec reluVec
            false false true).1.forward [1] none
            = some (plainFF reluVec identityVec (first :: mids) lastLayer [1]) :=
  ⟨by simp,
   densenet_context_first_layer mkLinOnes 1 1 1 [2] identityVec reluVec
     [1] [5] _ rfl (by simp)⟩

/-- C5 as frozen is refuted by an empty `node_list`: the net then has a single
linear layer, the loop over `hidden[:-1]` is empty, and a provided context is
silently ignored — `forward([1], [5])` returns `[1]`, identical to
`forward([1], None)`, although the (nonzero) image of the context under
`self.contextual` is `[5]` and the claim demands the first pre-activation
become `[1] + [5] = [6]`. -/
theorem densenet_context_empty_nodelist_ignored :
    (DenseNet.init mkLinOnes 1 1 (some 1) (some []) identityVec reluVec
        false false true).1.forward [1] (some [5]) = some [1]
    ∧ (DenseNet.init mkLinOnes 1 1 (some 1) (some []) identityVec reluVec
        false false true).1.forward [1] none = some [1]
    ∧ (DenseNet.init mkLinOnes 1 1 (some 1) (some []) identityVec reluVec
        false false true).1.contextual = some (mkLinOnes 1 1)
    ∧ (mkLinOnes 1 1).apply [5] = [5]
    ∧ identityVec (addVec ((mkLinOnes 1 1).apply [1]) ((mkLinOnes 1 1).apply [5]))
        ≠ [1] := by
  refine ⟨?_, ?_, rfl, ?_, ?_⟩
  · simp [DenseNet.init, DenseNet.forward, forwardLoop, mkLinOnes,
      Linear.apply, dot, addVec, reluVec, identityVec, List.range_succ]
  · simp [DenseNet.init, DenseNet.forward, forwardLoop, mkLinOnes,
      Linear.apply, dot, addVec, reluVec, identityVec, List.range_succ]
  · simp [mkLinOnes, Linear.apply, dot]
  · simp [mkLinOnes, Linear.apply, dot, addVec, identityVec]
